import Mathlib

/-
Verification development for the financial-document-analyzer repository.

The repository is a FastAPI service (main.py) over a SQLAlchemy store
(database.py) and a Celery queue (queue_worker.py).  The development below is
a shallow embedding of the task-lifecycle slice:

  - database.py / AnalysisResult rows and DatabaseManager operations become a
    record type and pure functions over an insertion-ordered list of rows
    (the SQLite table, rows in insertion order, the unique constraint on
    task_id modelled by an explicit existence check on insert);
  - queue_worker.py / cleanup_file_task becomes a pure function over the set
    of existing file paths;
  - main.py endpoint handlers become pure functions; external effects (uuid
    generation, the Celery job id, the crewai run_crew call) enter as
    explicit parameters, and datetime.utcnow is an abstract Nat tick.

Notes on fidelity:
  - AnalysisResult's surrogate primary key column (id, a fresh uuid) is
    omitted: no code path reads or filters on it.
  - The four numeric metric columns (revenue, profit_margin, debt_ratio,
    pe_ratio) and the two string metric columns are carried as opaque
    optional strings; the **financial_metrics kwargs loop of
    update_analysis_result is omitted since no caller in the repository ever
    passes financial metrics (main.py only passes analysis_result, status and
    error_message).
  - UserSession and its operations are omitted: no claim concerns them.
-/

namespace FinancialAnalyzer

/-- A row of the analysis_results table (database.py, class AnalysisResult).
Timestamps are abstract Nat ticks; nullable columns are Option. -/
structure AnalysisResult where
  task_id : String
  file_name : String
  file_path : String
  query : String
  analysis_result : Option String
  status : String
  created_at : Nat
  completed_at : Option Nat
  error_message : Option String
  revenue : Option String
  profit_margin : Option String
  debt_ratio_m : Option String
  pe_ratio_m : Option String
  investment_recommendation : Option String
  risk_level : Option String
deriving DecidableEq

/-- The analysis_results table: rows in insertion order. -/
structure DB where
  rows : List AnalysisResult
deriving DecidableEq

/-- The IntegrityError raised by the unique constraint on task_id. -/
structure DupError where
  msg : String
deriving DecidableEq

/-- The row built by AnalysisResult(task_id=..., file_name=..., file_path=...,
query=..., status=...): every other column takes its default (null, or the
creation timestamp for created_at).  completed_at is never set at creation,
whatever the requested status. -/
def newRecord (now : Nat) (task_id file_name file_path query status : String) :
    AnalysisResult :=
  { task_id := task_id
    file_name := file_name
    file_path := file_path
    query := query
    analysis_result := none
    status := status
    created_at := now
    completed_at := none
    error_message := none
    revenue := none
    profit_margin := none
    debt_ratio_m := none
    pe_ratio_m := none
    investment_recommendation := none
    risk_level := none }

/-- DatabaseManager.create_analysis_result (database.py lines 106-119).
The insert commits unless the unique constraint on task_id fires; on the
constraint violation the table is left unchanged and the error is returned. -/
def create_analysis_result (db : DB) (now : Nat)
    (task_id file_name file_path query status : String) :
    Except DupError AnalysisResult × DB :=
  if db.rows.any (fun r => r.task_id == task_id) then
    (Except.error ⟨"UNIQUE constraint failed: analysis_results.task_id"⟩, db)
  else
    let result := newRecord now task_id file_name file_path query status
    (Except.ok result, ⟨db.rows ++ [result]⟩)

/-- The field mutations performed by DatabaseManager.update_analysis_result
(database.py lines 127-134) on the row it found: each argument is applied
only when present, and completed_at is stamped exactly when the status
argument is COMPLETED. -/
def applyUpdate (now : Nat)
    (analysis_result status error_message : Option String)
    (r : AnalysisResult) : AnalysisResult :=
  let r1 := match analysis_result with
    | some a => { r with analysis_result := some a }
    | none => r
  let r2 := match status with
    | some s => { r1 with status := s }
    | none => r1
  let r3 := match error_message with
    | some m => { r2 with error_message := some m }
    | none => r2
  if status == some "COMPLETED" then { r3 with completed_at := some now } else r3

/-- Mutate the first row satisfying the task_id filter (the .first() row of
the SQLAlchemy query), returning the refreshed row and the new table. -/
def updateRows (f : AnalysisResult → AnalysisResult) (tid : String) :
    List AnalysisResult → Option AnalysisResult × List AnalysisResult
  | [] => (none, [])
  | r :: rs =>
    if r.task_id == tid then (some (f r), f r :: rs)
    else
      let rest := updateRows f tid rs
      (rest.1, r :: rest.2)

/-- DatabaseManager.update_analysis_result (database.py lines 121-143):
find the row by task_id, apply the partial update, commit; returns none
(and leaves the table unchanged) when the task_id is unknown. -/
def update_analysis_result (db : DB) (now : Nat) (task_id : String)
    (analysis_result status error_message : Option String) :
    Option AnalysisResult × DB :=
  let upd := updateRows (applyUpdate now analysis_result status error_message) task_id db.rows
  (upd.1, ⟨upd.2⟩)

/-- DatabaseManager.get_analysis_result (database.py lines 145-147). -/
def get_analysis_result (db : DB) (task_id : String) : Option AnalysisResult :=
  db.rows.find? (fun r => r.task_id == task_id)

/-- DatabaseManager.get_analysis_results (database.py lines 149-151):
offset then limit over the table, no explicit reordering, so rows arrive
in insertion order. -/
def get_analysis_results (db : DB) (limit offset : Nat) : List AnalysisResult :=
  (db.rows.drop offset).take limit

/-- The status/message dict returned by cleanup_file_task. -/
structure CleanupResult where
  status : String
  message : String
deriving DecidableEq

/-- queue_worker.cleanup_file_task (queue_worker.py lines 91-109) over the
set of existing paths: removes the file when present, returns a WARNING
dict when absent; every exception is caught and turned into an ERROR dict,
so the function never raises (the pure model has no failing removal). -/
def cleanup_file_task (fs : List String) (file_path : String) :
    CleanupResult × List String :=
  if file_path ∈ fs then
    (⟨"SUCCESS", "File " ++ file_path ++ " cleaned up successfully"⟩, fs.erase file_path)
  else
    (⟨"WARNING", "File " ++ file_path ++ " not found"⟩, fs)

/-- An HTTPException: status code and detail string. -/
structure HttpError where
  status_code : Nat
  detail : String
deriving DecidableEq

/-- Python str.isspace for the characters str.strip removes (ASCII range). -/
def pyIsSpace (c : Char) : Bool :=
  c == ' ' || c == '\t' || c == '\n' || c == '\r' || c == '\x0b' || c == '\x0c'

/-- Python str.strip(): drop leading and trailing whitespace. -/
def pyStrip (s : String) : String :=
  String.mk (((s.data.dropWhile pyIsSpace).reverse.dropWhile pyIsSpace).reverse)

/-- Python str.lower() (ASCII case mapping suffices for the extension check). -/
def pyToLower (s : String) : String :=
  String.mk (s.data.map Char.toLower)

/-- Python str.endswith(suffix). -/
def pyEndsWith (s suffix : String) : Bool :=
  List.isSuffixOf suffix.data s.data

/-- The default query of the analyze endpoint (main.py lines 73 and 96). -/
def DEFAULT_QUERY : String := "Analyze this financial document for investment insights"

/-- The JSON body returned by POST /analyze on success (main.py lines
117-124 and 148-155); constant message/status fields are dropped. -/
inductive AnalyzeResponse where
  | queued (task_id : String) (query : String) (file_processed : String) (file_id : String)
  | success (query : String) (analysis : String) (file_processed : String)
      (file_id : String) (task_id : String)
deriving DecidableEq

/-- The task_id field of the analyze response body. -/
def AnalyzeResponse.taskId : AnalyzeResponse → String
  | AnalyzeResponse.queued tid _ _ _ => tid
  | AnalyzeResponse.success _ _ _ _ tid => tid

/-- Observable system state: the store, the data directory, the enqueued
Celery jobs (job id, query, file path) and the scheduled background
cleanup tasks. -/
structure SysState where
  db : DB
  files : List String
  queue : List (String × String × String)
  cleanups : List String
deriving DecidableEq

/-- The except-branch of analyze_document (main.py lines 157-170): a
best-effort FAILED update keyed by file_id - not by the task_id the record
was created with - then HTTPException 500 wrapping the message. -/
def analyzeError (db : DB) (now : Nat) (file_id msg : String)
    (files : List String) (queue : List (String × String × String))
    (cleanups : List String) : Except HttpError AnalyzeResponse × SysState :=
  let upd := update_analysis_result db now file_id none (some "FAILED") (some msg)
  (Except.error ⟨500, "Error processing financial document: " ++ msg⟩,
   ⟨upd.2, files, queue, cleanups⟩)

/-- POST /analyze (main.py lines 69-174).  Parameters supplied by the
environment: now is the clock tick, file_id the generated uuid for the
upload path, queue_task_id the Celery job id, sync_task_id the uuid used
by the synchronous path, crew the outcome of run_crew (error = the raised
exception's message).  The queue path enqueues the job before creating the
record; the synchronous path runs the crew before creating the record and
creates it directly with status COMPLETED. -/
def analyze_document (st : SysState) (now : Nat)
    (file_id queue_task_id sync_task_id : String)
    (crew : Except String String)
    (filename query : String) (use_queue : Bool) :
    Except HttpError AnalyzeResponse × SysState :=
  if ¬ (pyEndsWith (pyToLower filename) ".pdf" = true) then
    (Except.error ⟨400, "Only PDF files are supported"⟩, st)
  else
    let file_path := "data/financial_document_" ++ file_id ++ ".pdf"
    let files1 := if file_path ∈ st.files then st.files else st.files ++ [file_path]
    let q := if query == "" || pyStrip query == "" then DEFAULT_QUERY else query
    if use_queue then
      let queue1 := st.queue ++ [(queue_task_id, pyStrip q, file_path)]
      match create_analysis_result st.db now queue_task_id filename file_path
          (pyStrip q) "PENDING" with
      | (Except.error e, db1) =>
          analyzeError db1 now file_id e.msg files1 queue1 st.cleanups
      | (Except.ok _, db1) =>
          (Except.ok (AnalyzeResponse.queued queue_task_id q filename file_id),
           ⟨db1, files1, queue1, st.cleanups ++ [file_path]⟩)
    else
      match crew with
      | Except.error emsg =>
          analyzeError st.db now file_id emsg files1 st.queue st.cleanups
      | Except.ok response =>
          match create_analysis_result st.db now sync_task_id filename file_path
              (pyStrip q) "COMPLETED" with
          | (Except.error e, db1) =>
              analyzeError db1 now file_id e.msg files1 st.queue st.cleanups
          | (Except.ok rec, db1) =>
              let upd := update_analysis_result db1 now rec.task_id
                  (some response) (some "COMPLETED") none
              (Except.ok (AnalyzeResponse.success q response filename
                  file_id rec.task_id),
               ⟨upd.2, files1, st.queue, st.cleanups ++ [file_path]⟩)

/-- GET /task/{task_id} (main.py lines 176-189).  The 404 HTTPException is
raised inside the try block, so the except-Exception clause catches it and
re-raises it as a 500 whose detail wraps str(HTTPException) =
"404: Task not found". -/
def get_task_status (db : DB) (task_id : String) :
    Except HttpError AnalysisResult :=
  match get_analysis_result db task_id with
  | none => Except.error ⟨500, "Error retrieving task status: 404: Task not found"⟩
  | some r => Except.ok r

/-- The result view returned by GET /task/{task_id}/result; the metric
sub-object mirrors the record's metric fields and is omitted (always none
in every reachable store: no code path sets metrics). -/
inductive TaskResultView where
  | notCompleted (status : String) (error : Option String)
  | success (task_id : String) (analysis : Option String) (completed_at : Option Nat)
deriving DecidableEq

/-- GET /task/{task_id}/result (main.py lines 208-241).  As in
get_task_status, the unknown-id 404 is swallowed by the except clause and
resurfaces as a 500. -/
def get_task_result (db : DB) (task_id : String) :
    Except HttpError TaskResultView :=
  match get_analysis_result db task_id with
  | none => Except.error ⟨500, "Error retrieving task result: 404: Task not found"⟩
  | some r =>
      if ¬ (r.status = "COMPLETED") then
        Except.ok (TaskResultView.notCompleted r.status r.error_message)
      else
        Except.ok (TaskResultView.success task_id r.analysis_result r.completed_at)

/-! Concrete scenario states used by the counterexample and witness theorems. -/

/-- The empty system state (fresh store, empty data directory, idle queue). -/
def emptyState : SysState := ⟨⟨[]⟩, [], [], []⟩

/-- Store holding one task t1 created PENDING at tick 0. -/
def dbPending : DB :=
  (create_analysis_result ⟨[]⟩ 0 "t1" "report.pdf" "data/financial_document_f0.pdf"
    "Summarize risk" "PENDING").2

/-- dbPending after the worker-style update to COMPLETED at tick 1. -/
def dbCompleted : DB :=
  (update_analysis_result dbPending 1 "t1" (some "all good") (some "COMPLETED") none).2

/-- dbCompleted after a later update back to PENDING at tick 2. -/
def dbRegressed : DB :=
  (update_analysis_result dbCompleted 2 "t1" none (some "PENDING") none).2

/-- The create call of the synchronous analyze path (main.py line 130):
a record created directly with status COMPLETED. -/
def createCompleted : Except DupError AnalysisResult × DB :=
  create_analysis_result ⟨[]⟩ 0 "t1" "report.pdf" "data/financial_document_f1.pdf"
    "Summarize risk" "COMPLETED"

/-- A synchronous submission on the empty state whose analysis succeeds. -/
def syncRun : Except HttpError AnalyzeResponse × SysState :=
  analyze_document emptyState 0 "f1" "q1" "s1" (Except.ok "RISK: LOW")
    "report.pdf" "Summarize risk" false

/-- System state holding one PENDING record for queued task qid-1. -/
def statePending : SysState :=
  ⟨(create_analysis_result ⟨[]⟩ 0 "qid-1" "a.pdf" "data/financial_document_f0.pdf"
      "q0" "PENDING").2,
   [], [], []⟩

/-- A synchronous submission on statePending whose analysis raises "boom". -/
def syncFailRun : Except HttpError AnalyzeResponse × SysState :=
  analyze_document statePending 1 "file-uuid-1" "qid-2" "sid-2" (Except.error "boom")
    "report.pdf" "q" false

/-- A queued submission on the empty state. -/
def queuedRun : Except HttpError AnalyzeResponse × SysState :=
  analyze_document emptyState 0 "f1" "q1" "s1" (Except.ok "unused")
    "report.pdf" "How risky" true

/-- A queued submission with an all-whitespace query. -/
def queuedBlankRun : Except HttpError AnalyzeResponse × SysState :=
  analyze_document emptyState 0 "f1" "q1" "s1" (Except.ok "unused")
    "report.pdf" "   " true

/-- Store with two records, distinct task ids, for the pagination witness. -/
def dbTwo : DB :=
  ((create_analysis_result
      (create_analysis_result ⟨[]⟩ 0 "t1" "a.pdf" "pa" "qa" "PENDING").2
      1 "t2" "b.pdf" "pb" "qb" "PENDING").2)

/-! Helper lemmas about the store operations. -/

theorem applyUpdate_task_id (now : Nat) (a s m : Option String) (r : AnalysisResult) :
    (applyUpdate now a s m r).task_id = r.task_id := by
  unfold applyUpdate
  cases a <;> cases s <;> cases m <;> simp only [] <;> split <;> rfl

theorem applyUpdate_status (now : Nat) (a m : Option String) (s' : String)
    (r : AnalysisResult) : (applyUpdate now a (some s') m r).status = s' := by
  unfold applyUpdate
  cases a <;> cases m <;> simp only [] <;> split <;> rfl

theorem applyUpdate_completed_at (now : Nat) (a m : Option String)
    (r : AnalysisResult) :
    (applyUpdate now a (some "COMPLETED") m r).completed_at = some now := by
  unfold applyUpdate
  cases a <;> cases m <;> rfl

theorem updateRows_fst (f : AnalysisResult → AnalysisResult) (tid : String)
    (l : List AnalysisResult) :
    (updateRows f tid l).1 = (l.find? (fun r => r.task_id == tid)).map f := by
  induction l with
  | nil => rfl
  | cons r rs ih =>
    unfold updateRows
    by_cases h : (r.task_id == tid) = true
    · simp [h, List.find?_cons]
    · simp only [Bool.not_eq_true] at h
      simp [h, List.find?_cons, ih]

theorem updateRows_snd_find (f : AnalysisResult → AnalysisResult) (tid : String)
    (hf : ∀ r, (f r).task_id = r.task_id) (l : List AnalysisResult) :
    (updateRows f tid l).2.find? (fun r => r.task_id == tid) =
      (l.find? (fun r => r.task_id == tid)).map f := by
  induction l with
  | nil => rfl
  | cons r rs ih =>
    unfold updateRows
    by_cases h : (r.task_id == tid) = true
    · have h1 : ((f r).task_id == tid) = true := by rw [hf r]; exact h
      simp [h, h1, List.find?_cons]
    · simp only [Bool.not_eq_true] at h
      simp [h, List.find?_cons, ih]

theorem applyUpdate_query (now : Nat) (a s m : Option String) (r : AnalysisResult) :
    (applyUpdate now a s m r).query = r.query := by
  unfold applyUpdate
  cases a <;> cases s <;> cases m <;> simp only [] <;> split <;> rfl

theorem pyStrip_DEFAULT : pyStrip DEFAULT_QUERY = DEFAULT_QUERY := rfl

theorem updateRows_append_fresh (f : AnalysisResult → AnalysisResult) (tid : String)
    (l : List AnalysisResult) (r : AnalysisResult)
    (hl : ∀ x ∈ l, (x.task_id == tid) = false) (hr : (r.task_id == tid) = true) :
    updateRows f tid (l ++ [r]) = (some (f r), l ++ [f r]) := by
  induction l with
  | nil => simp [updateRows, hr]
  | cons x xs ih =>
    have hx : (x.task_id == tid) = false := hl x (List.mem_cons_self x xs)
    have ih' := ih (fun y hy => hl y (List.mem_cons_of_mem x hy))
    simp only [List.cons_append]
    unfold updateRows
    simp [hx, ih']

/-- Inversion of a successful POST /analyze: the response and the state
delta of each 200 outcome, for both the queued and the synchronous path. -/
theorem analyze_ok_inv (st : SysState) (now : Nat)
    (file_id queue_task_id sync_task_id : String) (crew : Except String String)
    (filename query : String) (use_queue : Bool)
    (resp : AnalyzeResponse) (st' : SysState)
    (h : analyze_document st now file_id queue_task_id sync_task_id crew
        filename query use_queue = (Except.ok resp, st')) :
    if use_queue then
      resp = AnalyzeResponse.queued queue_task_id
          (if query == "" || pyStrip query == "" then DEFAULT_QUERY else query)
          filename file_id
      ∧ st'.db.rows = st.db.rows ++
          [newRecord now queue_task_id filename
            ("data/financial_document_" ++ file_id ++ ".pdf")
            (pyStrip (if query == "" || pyStrip query == "" then DEFAULT_QUERY else query))
            "PENDING"]
      ∧ st'.queue = st.queue ++ [(queue_task_id,
          pyStrip (if query == "" || pyStrip query == "" then DEFAULT_QUERY else query),
          "data/financial_document_" ++ file_id ++ ".pdf")]
    else
      ∃ response : String, crew = Except.ok response
      ∧ resp = AnalyzeResponse.success
          (if query == "" || pyStrip query == "" then DEFAULT_QUERY else query)
          response filename file_id sync_task_id
      ∧ st'.db.rows = st.db.rows ++
          [applyUpdate now (some response) (some "COMPLETED") none
            (newRecord now sync_task_id filename
              ("data/financial_document_" ++ file_id ++ ".pdf")
              (pyStrip (if query == "" || pyStrip query == "" then DEFAULT_QUERY else query))
              "COMPLETED")]
      ∧ st'.queue = st.queue := by
  unfold analyze_document at h
  split at h
  · simp at h
  · set q := if query == "" || pyStrip query == "" then DEFAULT_QUERY else query with hqdef
    by_cases hu : use_queue = true
    · rw [if_pos hu] at h ⊢
      split at h
      · simp [analyzeError] at h
      · rename_i val db1 heq
        unfold create_analysis_result at heq
        split at heq
        · simp at heq
        · rw [Prod.mk.injEq] at heq
          obtain ⟨he1, he2⟩ := heq
          subst he2
          rw [Prod.mk.injEq] at h
          obtain ⟨hr, hs⟩ := h
          rw [Except.ok.injEq] at hr
          subst hr
          subst hs
          exact ⟨rfl, rfl, rfl⟩
    · rw [if_neg hu] at h ⊢
      split at h
      · simp [analyzeError] at h
      · rename_i response
        split at h
        · simp [analyzeError] at h
        · rename_i rec db1 heq
          unfold create_analysis_result at heq
          split at heq
          · simp at heq
          · rename_i hdup
            rw [Prod.mk.injEq] at heq
            obtain ⟨he1, he2⟩ := heq
            rw [Except.ok.injEq] at he1
            subst he2
            subst he1
            rw [Prod.mk.injEq] at h
            obtain ⟨hr, hs⟩ := h
            rw [Except.ok.injEq] at hr
            subst hr
            subst hs
            have hl : ∀ x ∈ st.db.rows,
                (x.task_id == sync_task_id) = false := by
              intro x hx
              by_contra hfalse
              rw [Bool.not_eq_false] at hfalse
              exact hdup (List.any_eq_true.mpr ⟨x, hx, hfalse⟩)
            have hfresh := updateRows_append_fresh
              (applyUpdate now (some response) (some "COMPLETED") none)
              sync_task_id st.db.rows
              (newRecord now sync_task_id filename
                ("data/financial_document_" ++ file_id ++ ".pdf") (pyStrip q) "COMPLETED")
              hl (by simp [newRecord])
            refine ⟨response, rfl, rfl, ?_, rfl⟩
            show (updateRows (applyUpdate now (some response) (some "COMPLETED") none)
                sync_task_id (st.db.rows ++ [newRecord now sync_task_id filename
                  ("data/financial_document_" ++ file_id ++ ".pdf") (pyStrip q) "COMPLETED"])).2
              = st.db.rows ++ [applyUpdate now (some response) (some "COMPLETED") none
                  (newRecord now sync_task_id filename
                    ("data/financial_document_" ++ file_id ++ ".pdf") (pyStrip q) "COMPLETED")]
            rw [hfresh]

/-! Claim theorems. -/

/-- C1 (counterexample): status transitions are not one-directional.  A task
brought to the terminal status COMPLETED is moved back to PENDING by a later
update_analysis_result call: the store does not reject the regression. -/
theorem C1_counterexample :
    (get_analysis_result dbCompleted "t1").map (fun r => r.status) = some "COMPLETED"
    ∧ (get_analysis_result dbRegressed "t1").map (fun r => r.status) = some "PENDING" :=
  ⟨rfl, rfl⟩

/-- C1 (amended): the store enforces no monotonicity at all.  For every
stored record whose current status is terminal (COMPLETED or FAILED), an
update carrying any status s overwrites the record's status with s,
including regressions to PENDING or IN_PROGRESS. -/
theorem C1_amended_no_terminal_enforcement (db : DB) (now : Nat) (tid s : String)
    (a m : Option String)
    (hterm : (get_analysis_result db tid).map (fun r => r.status) = some "COMPLETED"
      ∨ (get_analysis_result db tid).map (fun r => r.status) = some "FAILED") :
    (get_analysis_result (update_analysis_result db now tid a (some s) m).2 tid).map
      (fun r => r.status) = some s := by
  have hsome : ∃ r0, get_analysis_result db tid = some r0 := by
    rcases hterm with h | h <;>
      · rcases Option.map_eq_some'.mp h with ⟨r0, hr0, -⟩
        exact ⟨r0, hr0⟩
  rcases hsome with ⟨r0, hr0⟩
  unfold get_analysis_result update_analysis_result
  unfold get_analysis_result at hr0
  rw [updateRows_snd_find _ _ (fun r => applyUpdate_task_id now a (some s) m r), hr0,
    Option.map_some', Option.map_some', applyUpdate_status]

/-- C1 (witness): a COMPLETED record is regressed to PENDING. -/
theorem C1_witness :
    ((get_analysis_result dbCompleted "t1").map (fun r => r.status) = some "COMPLETED"
      ∨ (get_analysis_result dbCompleted "t1").map (fun r => r.status) = some "FAILED")
    ∧ (get_analysis_result (update_analysis_result dbCompleted 2 "t1" none
        (some "PENDING") none).2 "t1").map (fun r => r.status) = some "PENDING" :=
  ⟨Or.inl (by decide),
   C1_amended_no_terminal_enforcement dbCompleted 2 "t1" "PENDING" none none
     (Or.inl (by decide))⟩

/-- C2 (counterexample): the create call of the synchronous analyze path
(main.py line 130) builds a record with status COMPLETED and completed_at
null, so completed_at non-null is not equivalent to status == COMPLETED. -/
theorem C2_counterexample :
    createCompleted.2.rows.map (fun r => (r.status, r.completed_at))
      = [("COMPLETED", none)] := rfl

/-- C2 (amended): an update that sets status=COMPLETED on an existing record
does stamp completed_at with the current time, in the returned record and in
the store; but the iff invariant fails (create leaves completed_at null even
with status COMPLETED, the stamp is rewritten by every COMPLETED update, and
it survives later transitions out of COMPLETED). -/
theorem C2_amended_completed_update_stamps (db : DB) (now : Nat) (tid : String)
    (a m : Option String)
    (h : (get_analysis_result db tid).isSome = true) :
    ((update_analysis_result db now tid a (some "COMPLETED") m).1.map
        (fun r => r.completed_at) = some (some now))
    ∧ ((get_analysis_result (update_analysis_result db now tid a (some "COMPLETED") m).2
        tid).map (fun r => r.completed_at) = some (some now)) := by
  rcases Option.isSome_iff_exists.mp h with ⟨r0, hr0⟩
  unfold get_analysis_result at hr0
  constructor
  · unfold update_analysis_result
    rw [updateRows_fst, hr0, Option.map_some', Option.map_some',
      applyUpdate_completed_at]
  · unfold get_analysis_result update_analysis_result
    rw [updateRows_snd_find _ _
        (fun r => applyUpdate_task_id now a (some "COMPLETED") m r), hr0,
      Option.map_some', Option.map_some', applyUpdate_completed_at]

/-- C2 (witness): completing task t1 at tick 1 stamps completed_at = 1. -/
theorem C2_witness :
    (get_analysis_result dbPending "t1").isSome = true
    ∧ ((update_analysis_result dbPending 1 "t1" (some "all good") (some "COMPLETED")
        none).1.map (fun r => r.completed_at) = some (some 1))
    ∧ ((get_analysis_result (update_analysis_result dbPending 1 "t1" (some "all good")
        (some "COMPLETED") none).2 "t1").map (fun r => r.completed_at) = some (some 1)) :=
  ⟨by decide,
   (C2_amended_completed_update_stamps dbPending 1 "t1" (some "all good") none
     (by decide)).1,
   (C2_amended_completed_update_stamps dbPending 1 "t1" (some "all good") none
     (by decide)).2⟩

/-- C5 (code bug): for an unknown task id both GET /task/id and
GET /task/id/result answer 500, not 404 - the deliberately raised 404
HTTPException is caught by the handlers' own except-Exception clause and
re-wrapped as a 500. -/
theorem C5_code_bug_unknown_id_is_500 :
    get_task_status ⟨[]⟩ "unknown-id" =
      Except.error ⟨500, "Error retrieving task status: 404: Task not found"⟩
    ∧ get_task_result ⟨[]⟩ "unknown-id" =
      Except.error ⟨500, "Error retrieving task result: 404: Task not found"⟩ :=
  ⟨rfl, rfl⟩

/-- C7: creating a record whose task_id already exists fails with the unique
constraint violation and leaves the store unchanged. -/
theorem C7_duplicate_create_rejected (db : DB) (now : Nat)
    (tid file_name file_path query status : String)
    (h : db.rows.any (fun r => r.task_id == tid) = true) :
    create_analysis_result db now tid file_name file_path query status =
      (Except.error ⟨"UNIQUE constraint failed: analysis_results.task_id"⟩, db) := by
  unfold create_analysis_result
  rw [if_pos h]

/-- C7 (witness): re-creating task t1 fails and the store is unchanged. -/
theorem C7_witness :
    dbPending.rows.any (fun r => r.task_id == "t1") = true
    ∧ create_analysis_result dbPending 1 "t1" "other.pdf" "data/other.pdf" "q2" "PENDING" =
        (Except.error ⟨"UNIQUE constraint failed: analysis_results.task_id"⟩, dbPending) :=
  ⟨by decide,
   C7_duplicate_create_rejected dbPending 1 "t1" "other.pdf" "data/other.pdf" "q2"
     "PENDING" (by decide)⟩

/-- C8: a submission whose filename does not end in .pdf (case-insensitive)
is rejected with 400 and the whole system state - store, files, queue,
scheduled cleanups - is left untouched. -/
theorem C8_non_pdf_rejected (st : SysState) (now : Nat)
    (file_id queue_task_id sync_task_id : String) (crew : Except String String)
    (filename query : String) (use_queue : Bool)
    (h : pyEndsWith (pyToLower filename) ".pdf" = false) :
    analyze_document st now file_id queue_task_id sync_task_id crew filename query
        use_queue =
      (Except.error ⟨400, "Only PDF files are supported"⟩, st) := by
  unfold analyze_document
  rw [if_pos (by simp [h])]

/-- C8 (witness): report.txt is rejected on the empty state. -/
theorem C8_witness :
    pyEndsWith (pyToLower "report.txt") ".pdf" = false
    ∧ analyze_document emptyState 0 "f1" "q1" "s1" (Except.ok "x") "report.txt" "q" true =
        (Except.error ⟨400, "Only PDF files are supported"⟩, emptyState) :=
  ⟨by decide,
   C8_non_pdf_rejected emptyState 0 "f1" "q1" "s1" (Except.ok "x") "report.txt" "q" true
     (by decide)⟩

/-- C9: cleaning up a file path that is absent returns a WARNING result,
never raises, leaves the file set unchanged, and a second call on the same
path warns again. -/
theorem C9_cleanup_absent_warns (fs : List String) (p : String) (h : p ∉ fs) :
    (cleanup_file_task fs p).1.status = "WARNING"
    ∧ (cleanup_file_task fs p).2 = fs
    ∧ (cleanup_file_task (cleanup_file_task fs p).2 p).1.status = "WARNING" := by
  simp [cleanup_file_task, h]

/-- C9 (witness): double cleanup of an absent path warns both times. -/
theorem C9_witness :
    "data/financial_document_f1.pdf" ∉ ["data/financial_document_f0.pdf"]
    ∧ (cleanup_file_task ["data/financial_document_f0.pdf"]
        "data/financial_document_f1.pdf").1.status = "WARNING"
    ∧ (cleanup_file_task ["data/financial_document_f0.pdf"]
        "data/financial_document_f1.pdf").2 = ["data/financial_document_f0.pdf"]
    ∧ (cleanup_file_task (cleanup_file_task ["data/financial_document_f0.pdf"]
        "data/financial_document_f1.pdf").2
        "data/financial_document_f1.pdf").1.status = "WARNING" :=
  ⟨by decide,
   (C9_cleanup_absent_warns ["data/financial_document_f0.pdf"]
     "data/financial_document_f1.pdf" (by decide)).1,
   (C9_cleanup_absent_warns ["data/financial_document_f0.pdf"]
     "data/financial_document_f1.pdf" (by decide)).2.1,
   (C9_cleanup_absent_warns ["data/financial_document_f0.pdf"]
     "data/financial_document_f1.pdf" (by decide)).2.2⟩

/-- C3 (counterexample): a valid synchronous submission (use_queue=false)
succeeds, but its single created record has status COMPLETED - it is never
PENDING, contradicting the claim that every valid submission creates a
PENDING record. -/
theorem C3_counterexample :
    syncRun.1 = Except.ok (AnalyzeResponse.success "Summarize risk" "RISK: LOW"
      "report.pdf" "f1" "s1")
    ∧ syncRun.2.db.rows.map (fun r => r.status) = ["COMPLETED"]
    ∧ ¬ syncRun.2.db.rows.map (fun r => r.status) = ["PENDING"] :=
  ⟨rfl, rfl, by decide⟩

/-- C3 (amended): every successful submission creates exactly one store
record, whose task_id equals the task_id in the response; the record is
created with status PENDING when use_queue is true, and with status
COMPLETED when use_queue is false (the synchronous path never writes
PENDING). -/
theorem C3_amended_one_record_created (st : SysState) (now : Nat)
    (file_id queue_task_id sync_task_id : String) (crew : Except String String)
    (filename query : String) (use_queue : Bool)
    (resp : AnalyzeResponse) (st' : SysState)
    (h : analyze_document st now file_id queue_task_id sync_task_id crew
        filename query use_queue = (Except.ok resp, st')) :
    st'.db.rows.map (fun r => r.task_id)
      = st.db.rows.map (fun r => r.task_id) ++ [resp.taskId]
    ∧ st'.db.rows.map (fun r => r.status)
      = st.db.rows.map (fun r => r.status)
        ++ [if use_queue then "PENDING" else "COMPLETED"] := by
  have hin := analyze_ok_inv st now file_id queue_task_id sync_task_id crew
    filename query use_queue resp st' h
  by_cases hu : use_queue = true
  · rw [if_pos hu] at hin
    obtain ⟨hresp, hrows, -⟩ := hin
    subst hresp
    rw [hrows, if_pos hu]
    constructor <;> simp [newRecord, AnalyzeResponse.taskId]
  · rw [if_neg hu] at hin
    obtain ⟨response, -, hresp, hrows, -⟩ := hin
    subst hresp
    rw [hrows, if_neg hu]
    constructor <;>
      simp [newRecord, AnalyzeResponse.taskId, applyUpdate_task_id, applyUpdate_status]

/-- C3 (witness): a queued submission on the empty state creates the one
record q1 with status PENDING. -/
theorem C3_witness :
    queuedRun.2.db.rows.map (fun r => r.task_id) = ["q1"]
    ∧ queuedRun.2.db.rows.map (fun r => r.status) = ["PENDING"] := by
  have h := C3_amended_one_record_created emptyState 0 "f1" "q1" "s1"
    (Except.ok "unused") "report.pdf" "How risky" true
    (AnalyzeResponse.queued "q1" "How risky" "report.pdf" "f1") queuedRun.2 rfl
  simpa [emptyState, AnalyzeResponse.taskId] using h

/-- C4 (code bug): an exception after validation surfaces as a 500, but no
record is marked FAILED.  On a store holding the PENDING record qid-1, a
synchronous submission whose analysis raises boom returns the 500 yet
leaves the store byte-identical (the handler's best-effort update targets
task_id = file_id, which matches no record), so no record carries the
captured error. -/
theorem C4_code_bug_failed_mark_misses :
    syncFailRun.1 = Except.error ⟨500, "Error processing financial document: boom"⟩
    ∧ syncFailRun.2.db = statePending.db
    ∧ syncFailRun.2.db.rows.filter (fun r => r.status == "FAILED") = [] :=
  ⟨rfl, by decide, by decide⟩

/-- C6: pagination of the store is insertion-ordered and consistent: the
first k records and the next k records concatenate to the first 2k records
in order, both slices have length k, and (given the store's unique task
ids) the two slices are disjoint. -/
theorem C6_pagination_disjoint_slices (db : DB) (k : Nat)
    (hnodup : (db.rows.map (fun r => r.task_id)).Nodup)
    (hlen : 2 * k ≤ db.rows.length) :
    get_analysis_results db k 0 ++ get_analysis_results db k k = db.rows.take (2 * k)
    ∧ (get_analysis_results db k 0).length = k
    ∧ (get_analysis_results db k k).length = k
    ∧ ((get_analysis_results db k 0).all (fun a =>
        (get_analysis_results db k k).all (fun b => !(a.task_id == b.task_id)))) = true := by
  have h0 : get_analysis_results db k 0 = db.rows.take k := by
    unfold get_analysis_results
    rw [List.drop_zero]
  have hk : get_analysis_results db k k = (db.rows.drop k).take k := rfl
  refine ⟨?_, ?_, ?_, ?_⟩
  · rw [h0, hk, two_mul, List.take_add]
  · rw [h0, List.length_take, Nat.min_eq_left (by omega)]
  · rw [hk, List.length_take, List.length_drop, Nat.min_eq_left (by omega)]
  · rw [List.all_eq_true]
    intro a ha
    rw [List.all_eq_true]
    intro b hb
    rw [h0] at ha
    rw [hk] at hb
    have hb' : b ∈ db.rows.drop k := List.take_subset _ _ hb
    have hmem_a : a.task_id ∈ (db.rows.map (fun r => r.task_id)).take k := by
      rw [← List.map_take]
      exact List.mem_map_of_mem _ ha
    have hmem_b : b.task_id ∈ (db.rows.map (fun r => r.task_id)).drop k := by
      rw [← List.map_drop]
      exact List.mem_map_of_mem _ hb'
    have hnodup2 : ((db.rows.map (fun r => r.task_id)).take k ++
        (db.rows.map (fun r => r.task_id)).drop k).Nodup := by
      rw [List.take_append_drop]
      exact hnodup
    have hdisj := List.disjoint_of_nodup_append hnodup2
    have hne : ¬ a.task_id = b.task_id := fun he => hdisj hmem_a (he ▸ hmem_b)
    simp [hne]

/-- C6 (witness): on a two-record store, the two unit pages partition the
first two records and are disjoint. -/
theorem C6_witness :
    (dbTwo.rows.map (fun r => r.task_id)).Nodup
    ∧ 2 * 1 ≤ dbTwo.rows.length
    ∧ (get_analysis_results dbTwo 1 0 ++ get_analysis_results dbTwo 1 1
        = dbTwo.rows.take (2 * 1)
      ∧ (get_analysis_results dbTwo 1 0).length = 1
      ∧ (get_analysis_results dbTwo 1 1).length = 1
      ∧ ((get_analysis_results dbTwo 1 0).all (fun a =>
          (get_analysis_results dbTwo 1 1).all (fun b =>
            !(a.task_id == b.task_id)))) = true) :=
  ⟨by decide, by decide, C6_pagination_disjoint_slices dbTwo 1 (by decide) (by decide)⟩

/-- C10: when the query form field is empty or all-whitespace, the default
query is substituted: the created record stores the default, and on the
queued path the enqueued job carries the default as well. -/
theorem C10_default_query_substituted (st : SysState) (now : Nat)
    (file_id queue_task_id sync_task_id : String) (crew : Except String String)
    (filename query : String) (use_queue : Bool)
    (resp : AnalyzeResponse) (st' : SysState)
    (hq : pyStrip query = "")
    (h : analyze_document st now file_id queue_task_id sync_task_id crew
        filename query use_queue = (Except.ok resp, st')) :
    st'.db.rows.map (fun r => r.query)
      = st.db.rows.map (fun r => r.query) ++ [DEFAULT_QUERY]
    ∧ (use_queue = true →
        st'.queue.map (fun j => j.2.1) = st.queue.map (fun j => j.2.1) ++ [DEFAULT_QUERY]) := by
  have hin := analyze_ok_inv st now file_id queue_task_id sync_task_id crew
    filename query use_queue resp st' h
  have hcond : (query == "" || pyStrip query == "") = true := by
    simp [hq]
  rw [hcond] at hin
  by_cases hu : use_queue = true
  · rw [if_pos hu] at hin
    obtain ⟨-, hrows, hqueue⟩ := hin
    constructor
    · rw [hrows]
      simp [newRecord, pyStrip_DEFAULT]
    · intro _
      rw [hqueue]
      simp [pyStrip_DEFAULT]
  · rw [if_neg hu] at hin
    obtain ⟨response, -, -, hrows, -⟩ := hin
    constructor
    · rw [hrows]
      simp [newRecord, pyStrip_DEFAULT, applyUpdate_query]
    · intro hu'
      exact absurd hu' hu

/-- C10 (witness): a queued submission with the all-whitespace query stores
and enqueues the default query. -/
theorem C10_witness :
    queuedBlankRun.2.db.rows.map (fun r => r.query) = [DEFAULT_QUERY]
    ∧ queuedBlankRun.2.queue.map (fun j => j.2.1) = [DEFAULT_QUERY] := by
  have h := C10_default_query_substituted emptyState 0 "f1" "q1" "s1"
    (Except.ok "unused") "report.pdf" "   " true
    (AnalyzeResponse.queued "q1" DEFAULT_QUERY "report.pdf" "f1") queuedBlankRun.2
    (by decide) rfl
  exact ⟨by simpa [emptyState] using h.1, by simpa [emptyState] using h.2 rfl⟩

end FinancialAnalyzer
